import Mathlib

/-!
Shallow embedding, in Lean 4, of parts of the `pandoracore/heartwood`
repository:

* `radicle-node/src/service/session.rs` — the peer-session state machine
  (`PingState`, `Protocol`, `State`, `Session` and its transitions);
* `radicle-node/src/service/config.rs` — the service configuration and its
  project-tracking policy (`ProjectTracking`, `Config`);
* `radicle-node/src/wire/transcode.rs` — transport framing (`Framer` with the
  `PlainTranscoder`) and channel multiplexing (`MuxMsg`).

Conventions.  Machine integers are modelled as `Nat` (bytes are `Nat`s below
256, `u16` values are `Nat`s below 65536; reductions modulo 256 / 65536 are
written out where the Rust code truncates).  Identifier-like types that the
sources treat as abstract (`Id`, `NodeId`, `LocalTime`, `Rng`, the
subscription payload) are modelled as `Nat`.  `HashSet<Id>` is modelled as
`Finset Id`.  Rust functions that can panic are embedded as `Option`-valued
functions: `none` models a panic.  Functions taking `&mut self` are embedded
as functions returning the updated value (paired with the Rust return value
when there is one).
-/

namespace Heartwood

/-- Repository identifier (`Id` in `radicle`), abstract in the embedded code. -/
abbrev Id := Nat

/-- Node (peer) identifier, abstract in the embedded code. -/
abbrev NodeId := Nat

/-- `LocalTime` from `nakamoto_net`, abstract in the embedded code. -/
abbrev LocalTime := Nat

/-- Entropy source handle (`Rng`), abstract in the embedded code. -/
abbrev Rng := Nat

/-- Subscription payload (`message::Subscribe`), abstract in the embedded code. -/
abbrev Subscribe := Nat

/-- Connection direction (`Link` from `nakamoto_net`). -/
inductive Link
  | inbound
  | outbound
deriving DecidableEq, Repr

/-- Ping state of a session (`PingState` in `session.rs`). -/
inductive PingState
  | none
  | awaitingResponse (ponglen : Nat)
  | ok
deriving DecidableEq, Repr

/-- Session protocol (`Protocol` in `session.rs`): the gossip protocol, with an
optional requested repository, or the git fetch protocol. -/
inductive Protocol
  | gossip (requested : Option Id)
  | fetch (rid : Id)
deriving DecidableEq, Repr

/-- `Protocol::default()`: `Gossip { requested: None }`. -/
def Protocol.default : Protocol := Protocol.gossip Option.none

/-- Peer connection state (`State` in `session.rs`). -/
inductive State
  | connecting
  | connected (since : LocalTime) (ping : PingState) (protocol : Protocol)
  | disconnected (since : LocalTime)
deriving DecidableEq, Repr

/-- Modelled from the spec: the gossip message type (`service::message::Message`)
is not among the given sources; only its `Fetch { rid }` variant, which
`Session::fetch` returns inside `FetchResult::Ready`, is modelled here. -/
inductive Message
  | fetch (rid : Id)
deriving DecidableEq, Repr

/-- Return value of `Session::fetch` (`FetchResult` in `session.rs`). -/
inductive FetchResult
  | alreadyFetching (rid : Id)
  | ready (msg : Message)
  | notConnected
deriving DecidableEq, Repr

/-- A peer session (`Session` in `session.rs`). -/
structure Session where
  id : NodeId
  link : Link
  persistent : Bool
  state : State
  subscribe : Option Subscribe
  last_active : LocalTime
  attempts : Nat
  rng : Rng
deriving DecidableEq, Repr

/-- `Session::is_connecting`. -/
def Session.is_connecting (s : Session) : Bool :=
  match s.state with
  | State.connecting => true
  | _ => false

/-- `Session::is_connected`. -/
def Session.is_connected (s : Session) : Bool :=
  match s.state with
  | State.connected _ _ _ => true
  | _ => false

/-- `Session::is_disconnected`. -/
def Session.is_disconnected (s : Session) : Bool :=
  match s.state with
  | State.disconnected _ => true
  | _ => false

/-- `Session::fetch(&mut self, rid)`: pattern-matches on the state and protocol
and returns a `FetchResult`; it writes to no field, so the embedding returns
the result paired with the (unchanged) session. -/
def Session.fetch (s : Session) (rid : Id) : FetchResult × Session :=
  match s.state with
  | State.connected _ _ (Protocol.gossip (some requested)) =>
      (FetchResult.alreadyFetching requested, s)
  | State.connected _ _ (Protocol.gossip Option.none) =>
      (FetchResult.ready (Message.fetch rid), s)
  | State.connected _ _ (Protocol.fetch r) =>
      (FetchResult.alreadyFetching r, s)
  | _ => (FetchResult.notConnected, s)

/-- `Session::to_requesting(&mut self, rid)`: sets the protocol to
`Gossip { requested: Some(rid) }`; panics (`none`) when not connected. -/
def Session.to_requesting (s : Session) (rid : Id) : Option Session :=
  match s.state with
  | State.connected since ping _ =>
      some { s with state := State.connected since ping (Protocol.gossip (some rid)) }
  | _ => Option.none

/-- `Session::to_fetching(&mut self, rid)`: sets the protocol to
`Fetch { rid }`; panics (`none`) when not connected. -/
def Session.to_fetching (s : Session) (rid : Id) : Option Session :=
  match s.state with
  | State.connected since ping _ =>
      some { s with state := State.connected since ping (Protocol.fetch rid) }
  | _ => Option.none

/-- `Session::to_gossip(&mut self)`: when connected with the `Fetch` protocol,
resets the protocol to `Protocol::default()`; when connected with the `Gossip`
protocol, panics (`none`); when not connected, the `if let` falls through and
the session is left unchanged. -/
def Session.to_gossip (s : Session) : Option Session :=
  match s.state with
  | State.connected since ping (Protocol.fetch _) =>
      some { s with state := State.connected since ping Protocol.default }
  | State.connected _ _ (Protocol.gossip _) => Option.none
  | _ => some s

/-- `Session::to_connecting(&mut self)`: asserts the session is disconnected
(panic, `none`, otherwise), sets the state to `Connecting` and increments
`attempts`. -/
def Session.to_connecting (s : Session) : Option Session :=
  if s.is_disconnected then
    some { s with state := State.connecting, attempts := s.attempts + 1 }
  else Option.none

/-- `Session::to_connected(&mut self, since)`: asserts the session is
connecting (panic, `none`, otherwise), resets `attempts` to 0 and sets the
state to `Connected` with the default ping state and default protocol. -/
def Session.to_connected (s : Session) (since : LocalTime) : Option Session :=
  if s.is_connecting then
    some { s with
      attempts := 0,
      state := State.connected since PingState.none Protocol.default }
  else Option.none

/-- `Session::to_disconnected(&mut self, since)`: unconditionally sets the
state to `Disconnected { since }`. -/
def Session.to_disconnected (s : Session) (since : LocalTime) : Session :=
  { s with state := State.disconnected since }

/-- Peer address (`PeerAddr`), abstract in the embedded code. -/
abbrev PeerAddr := Nat

/-- Listen address (`message::ConnectAddr`), abstract in the embedded code. -/
abbrev ConnectAddr := Nat

/-- User public key (`PublicKey`), abstract in the embedded code. -/
abbrev PublicKey := Nat

/-- SOCKS5 proxy address (`net::SocketAddr`), abstract in the embedded code. -/
abbrev SocketAddr := Nat

/-- Peer-to-peer network (`Network` in `config.rs`). -/
inductive Network
  | main
  | test
deriving DecidableEq, Repr

/-- Project tracking policy (`ProjectTracking` in `config.rs`): either track
all repositories except a blocked set, or track a static allowed set. -/
inductive ProjectTracking
  | all (blocked : Finset Id)
  | allowed (ids : Finset Id)
deriving DecidableEq

/-- `ProjectTracking::default()`: track all, with an empty blocked set. -/
def ProjectTracking.default : ProjectTracking := ProjectTracking.all ∅

/-- Project remote tracking policy (`RemoteTracking` in `config.rs`). -/
inductive RemoteTracking
  | delegatesOnly
  | all (blocked : Finset PublicKey)
  | allowed (keys : Finset PublicKey)
deriving DecidableEq

/-- Service configuration (`Config` in `config.rs`). -/
structure Config where
  connect : List PeerAddr
  external_addresses : List PeerAddr
  socks5_proxy : Option SocketAddr
  network : Network
  project_tracking : ProjectTracking
  remote_tracking : RemoteTracking
  relay : Bool
  listen : List ConnectAddr
deriving DecidableEq

/-- `Config::default()`. -/
def Config.default : Config where
  connect := []
  external_addresses := []
  socks5_proxy := Option.none
  network := Network.main
  project_tracking := ProjectTracking.default
  remote_tracking := RemoteTracking.delegatesOnly
  relay := true
  listen := []

/-- `Config::is_persistent`. -/
def Config.is_persistent (c : Config) (addr : PeerAddr) : Bool :=
  c.connect.contains addr

/-- `Config::is_tracking`: under `All`, a repository is tracked iff it is not
blocked; under `Allowed`, iff it is in the allowed set. -/
def Config.is_tracking (c : Config) (id : Id) : Bool :=
  match c.project_tracking with
  | ProjectTracking.all blocked => decide (id ∉ blocked)
  | ProjectTracking.allowed ids => decide (id ∈ ids)

/-- `Config::track(&mut self, id)`: under `All`, returns `false` and leaves the
configuration untouched; under `Allowed`, inserts `id` into the allowed set and
returns whether it was newly inserted (`HashSet::insert`). -/
def Config.track (c : Config) (id : Id) : Bool × Config :=
  match c.project_tracking with
  | ProjectTracking.all _ => (false, c)
  | ProjectTracking.allowed ids =>
      (decide (id ∉ ids),
       { c with project_tracking := ProjectTracking.allowed (insert id ids) })

/-- `Config::untrack(&mut self, id)`: under `All`, inserts `id` into the
blocked set and returns whether it was newly inserted; under `Allowed`, removes
`id` from the allowed set and returns whether it was present
(`HashSet::remove`). -/
def Config.untrack (c : Config) (id : Id) : Bool × Config :=
  match c.project_tracking with
  | ProjectTracking.all blocked =>
      (decide (id ∉ blocked),
       { c with project_tracking := ProjectTracking.all (insert id blocked) })
  | ProjectTracking.allowed ids =>
      (decide (id ∈ ids),
       { c with project_tracking := ProjectTracking.allowed (ids.erase id) })

/-- A byte: the embedding stores bytes as `Nat`s (meaningful values are below
256; the operations below write out the truncations the Rust types force). -/
abbrev Byte := Nat

/-- `PlainTranscoder::decode`: the identity. -/
def PlainTranscoder.decode (data : List Byte) : List Byte := data

/-- `PlainTranscoder::encode`: the identity. -/
def PlainTranscoder.encode (data : List Byte) : List Byte := data

/-- `OversizedData(usize)` error from `transcode.rs`. -/
structure OversizedData where
  len : Nat
deriving DecidableEq, Repr

/-- `Framer<PlainTranscoder>` from `transcode.rs`: an input byte queue.  The
`inner` transcoder is the stateless `PlainTranscoder`, so it carries no state
of its own. -/
structure Framer where
  input : List Byte
deriving DecidableEq, Repr

/-- `Framer::input(&mut self, encoded)`: decodes the bytes with the inner
transcoder and appends them to the input queue. -/
def Framer.push (f : Framer) (encoded : List Byte) : Framer :=
  { f with input := f.input ++ PlainTranscoder.decode encoded }

/-- `Framer::frame(&mut self, decoded)`: encodes the payload with the inner
transcoder, converts its length with `u8::try_from` (an error above 255), and
emits the big-endian bytes of that `u8` length — a single byte — followed by
the payload.  Reads no framer state (the `PlainTranscoder` is stateless). -/
def Framer.frame (decoded : List Byte) : Except OversizedData (List Byte) :=
  let data := PlainTranscoder.encode decoded
  let len := data.length
  if len ≤ 255 then
    Except.ok (len :: data)
  else
    Except.error ⟨len⟩

/-- `<Framer as Iterator>::next`: returns `none` when fewer than 2 bytes are
queued; otherwise `read_exact` consumes two bytes off the queue and reads them
as a big-endian `u16` length `len`; if fewer than `2 + len` bytes remain the
call returns `none` (the two consumed bytes are lost); otherwise two more bytes
are popped, `len` bytes are taken as the payload and the rest is kept. -/
def Framer.next (f : Framer) : Option (List Byte) × Framer :=
  match f.input with
  | b0 :: b1 :: rest =>
      let len := b0 * 256 + b1
      if rest.length < 2 + len then (Option.none, { input := rest })
      else
        match rest with
        | _ :: _ :: rest2 =>
            (some (rest2.take len), { input := rest2.drop len })
        | _ => (Option.none, { input := rest })
  | other => (Option.none, { input := other })

/-- Draining the `Framer` iterator, as a Rust `for frame in &mut framer` loop
does: repeatedly call `next`, collecting the yielded frames in order, stopping
at the first `none` (fuel bounds the number of steps; every claim below uses
it with ample fuel). -/
def Framer.drain (f : Framer) : Nat → List (List Byte) × Framer
  | 0 => ([], f)
  | fuel + 1 =>
      match Framer.next f with
      | (some d, f2) =>
          let rec_result := Framer.drain f2 fuel
          (d :: rec_result.1, rec_result.2)
      | (Option.none, f2) => ([], f2)

/-- `ChannelError` from `transcode.rs`. -/
inductive ChannelError
  | mk
deriving DecidableEq, Repr

/-- A multiplexed message (`MuxMsg` in `transcode.rs`): a `u16` channel id and
the message bytes. -/
structure MuxMsg where
  channel : Nat
  data : List Byte
deriving DecidableEq, Repr

/-- `From<MuxMsg> for Frame`: the two big-endian bytes of the `u16` channel id
followed by the message data. -/
def MuxMsg.toFrame (m : MuxMsg) : List Byte :=
  (m.channel % 65536) / 256 :: m.channel % 256 :: m.data

/-- `TryFrom<Frame> for MuxMsg`: an error when the frame is shorter than 2
bytes; otherwise the channel id is read from the first two bytes and — the
cursor's `into_inner` returning the whole underlying vector — `data` is the
entire frame, the two channel bytes included. -/
def MuxMsg.tryFrom (frame : List Byte) : Except ChannelError MuxMsg :=
  match frame with
  | b0 :: b1 :: _ => Except.ok { channel := b0 * 256 + b1, data := frame }
  | _ => Except.error ChannelError.mk

/-- A session with the given state and fixed values for the remaining fields;
used to instantiate the theorems below at concrete inputs. -/
def mkSession (st : State) : Session where
  id := 1
  link := Link.outbound
  persistent := false
  state := st
  subscribe := Option.none
  last_active := 0
  attempts := 0
  rng := 0

/-- A connected session in the default gossip protocol state. -/
def sessionGossipNone : Session :=
  mkSession (State.connected 0 PingState.none (Protocol.gossip Option.none))

/-- A connected session in the fetch protocol state (repository 3). -/
def sessionFetching : Session :=
  mkSession (State.connected 0 PingState.none (Protocol.fetch 3))

/-- A disconnected session. -/
def sessionDisconnected : Session :=
  mkSession (State.disconnected 0)

/-- A configuration with the track-all policy and repository 0 blocked. -/
def configBlockedZero : Config :=
  { Config.default with project_tracking := ProjectTracking.all {0} }

end Heartwood

deriving instance DecidableEq for Except

namespace Heartwood

/-- C1: for every session and repository id `rid`, `Session::fetch rid`
returns `Ready (Fetch rid)` when the session is connected with protocol
`Gossip { requested: None }`; `AlreadyFetching q` when it is connected with
protocol `Gossip { requested: Some q }` or `Fetch { rid: q }`; and
`NotConnected` when it is connecting or disconnected. -/
theorem fetch_result_cases (s : Session) (rid : Id) :
    (∀ since ping, s.state = State.connected since ping (Protocol.gossip Option.none) →
      (s.fetch rid).1 = FetchResult.ready (Message.fetch rid)) ∧
    (∀ since ping q, s.state = State.connected since ping (Protocol.gossip (some q)) →
      (s.fetch rid).1 = FetchResult.alreadyFetching q) ∧
    (∀ since ping q, s.state = State.connected since ping (Protocol.fetch q) →
      (s.fetch rid).1 = FetchResult.alreadyFetching q) ∧
    (s.state = State.connecting → (s.fetch rid).1 = FetchResult.notConnected) ∧
    (∀ since, s.state = State.disconnected since →
      (s.fetch rid).1 = FetchResult.notConnected) := by
  refine ⟨?_, ?_, ?_, ?_, ?_⟩
  · intro since ping h
    simp [Session.fetch, h]
  · intro since ping q h
    simp [Session.fetch, h]
  · intro since ping q h
    simp [Session.fetch, h]
  · intro h
    simp [Session.fetch, h]
  · intro since h
    simp [Session.fetch, h]

/-- Witness for C1 at a concrete connected session in the default gossip
state. -/
theorem fetch_result_cases_witness :
    (sessionGossipNone.fetch 7).1 = FetchResult.ready (Message.fetch 7) :=
  (fetch_result_cases sessionGossipNone 7).1 0 PingState.none rfl

/-- C9: `Session::fetch` never modifies the session: whatever the state and
whichever result is returned, every field is unchanged. -/
theorem fetch_preserves_session (s : Session) (rid : Id) : (s.fetch rid).2 = s := by
  rcases s with ⟨id, link, pers, st, sub, la, att, rng⟩
  rcases st with _ | ⟨since, ping, proto⟩ | since
  · rfl
  · rcases proto with req | r
    · rcases req with _ | q <;> rfl
    · rfl
  · rfl

/-- C2 (counterexample): at a concrete connected session in the
`Gossip { requested: None }` state, `fetch 7` returns `Ready (Fetch 7)`, yet
the session's protocol state immediately afterwards is still
`Gossip { requested: None }` — not `Gossip { requested: Some 7 }` as the claim
states. -/
theorem fetch_ready_counterexample :
    (sessionGossipNone.fetch 7).1 = FetchResult.ready (Message.fetch 7) ∧
    (sessionGossipNone.fetch 7).2.state
      = State.connected 0 PingState.none (Protocol.gossip Option.none) ∧
    (sessionGossipNone.fetch 7).2.state
      ≠ State.connected 0 PingState.none (Protocol.gossip (some 7)) := by
  decide

/-- C2 (amended): immediately after `Session::fetch p` returns `Ready`, the
session is unchanged and its protocol is still `Gossip { requested: None }`;
the protocol becomes `Gossip { requested: p }` only through the separate
`Session::to_requesting p` call. -/
theorem fetch_ready_then_to_requesting (s : Session) (p : Id) (since : LocalTime)
    (ping : PingState)
    (h : s.state = State.connected since ping (Protocol.gossip Option.none)) :
    (s.fetch p).1 = FetchResult.ready (Message.fetch p) ∧
    (s.fetch p).2 = s ∧
    Session.to_requesting (s.fetch p).2 p
      = some { s with state := State.connected since ping (Protocol.gossip (some p)) } := by
  refine ⟨?_, ?_, ?_⟩ <;>
    simp [Session.fetch, Session.to_requesting, h]

/-- Witness for the amended C2 at a concrete connected session. -/
theorem fetch_ready_then_to_requesting_witness :
    (sessionGossipNone.fetch 7).1 = FetchResult.ready (Message.fetch 7) ∧
    (sessionGossipNone.fetch 7).2 = sessionGossipNone ∧
    Session.to_requesting (sessionGossipNone.fetch 7).2 7
      = some { sessionGossipNone with
               state := State.connected 0 PingState.none (Protocol.gossip (some 7)) } :=
  fetch_ready_then_to_requesting sessionGossipNone 7 0 PingState.none rfl

/-- C3 (counterexample): with the default configuration (policy
`All { blocked: {} }`) and repository 0, `is_tracking` is `true` beforehand,
but after `track 0` followed by `untrack 0` it is `false`: the pair of calls
does not restore the original value. -/
theorem track_untrack_counterexample :
    Config.default.is_tracking 0 = true ∧
    (((Config.default.track 0).2.untrack 0).2.is_tracking 0) = false := by
  decide

/-- C3 (amended): after `Config::track p` followed by `Config::untrack p`,
`is_tracking p` is `false` under both policies (under `All` the `untrack`
blocks `p`; under `Allowed` it removes `p`); hence the original value is
restored exactly when `p` was untracked to begin with. -/
theorem track_untrack_not_tracking (c : Config) (p : Id) :
    (((c.track p).2.untrack p).2.is_tracking p) = false ∧
    ((((c.track p).2.untrack p).2.is_tracking p) = c.is_tracking p ↔
      c.is_tracking p = false) := by
  obtain ⟨con, ext, prox, nw, pt, rt, rel, lis⟩ := c
  cases pt with
  | all blocked =>
      have hleft : decide (p ∉ insert p blocked) = false := by
        simp [Finset.mem_insert_self]
      refine ⟨hleft, ?_⟩
      show decide (p ∉ insert p blocked) = decide (p ∉ blocked) ↔
        decide (p ∉ blocked) = false
      rw [hleft]
      exact eq_comm
  | allowed ids =>
      have hleft : decide (p ∈ (insert p ids).erase p) = false := by
        simp [Finset.not_mem_erase]
      refine ⟨hleft, ?_⟩
      show decide (p ∈ (insert p ids).erase p) = decide (p ∈ ids) ↔
        decide (p ∈ ids) = false
      rw [hleft]
      exact eq_comm

/-- C7 (counterexample): on a concrete disconnected session, `to_gossip` does
not panic — the claim says it panics in every state other than
`Connected { Fetch }` — and leaves the session unchanged. -/
theorem to_gossip_counterexample :
    sessionDisconnected.to_gossip = some sessionDisconnected ∧
    sessionDisconnected.to_gossip ≠ Option.none := by
  decide

/-- C7 (amended): `to_gossip` resets the protocol to
`Gossip { requested: None }` when the session is connected with the `Fetch`
protocol; it panics when the session is connected with the `Gossip` protocol;
and when the session is connecting or disconnected it is a no-op, leaving the
session unchanged. -/
theorem to_gossip_cases (s : Session) :
    (∀ since ping rid, s.state = State.connected since ping (Protocol.fetch rid) →
      s.to_gossip
        = some { s with
                 state := State.connected since ping (Protocol.gossip Option.none) }) ∧
    (∀ since ping req, s.state = State.connected since ping (Protocol.gossip req) →
      s.to_gossip = Option.none) ∧
    (s.state = State.connecting → s.to_gossip = some s) ∧
    (∀ since, s.state = State.disconnected since → s.to_gossip = some s) := by
  refine ⟨?_, ?_, ?_, ?_⟩
  · intro since ping rid h
    simp [Session.to_gossip, Protocol.default, h]
  · intro since ping req h
    simp [Session.to_gossip, h]
  · intro h
    simp [Session.to_gossip, h]
  · intro since h
    simp [Session.to_gossip, h]

/-- Witness for the amended C7 at a concrete fetching session. -/
theorem to_gossip_cases_witness :
    sessionFetching.to_gossip
      = some { sessionFetching with
               state := State.connected 0 PingState.none (Protocol.gossip Option.none) } :=
  (to_gossip_cases sessionFetching).1 0 PingState.none 3 rfl

/-- C8: the connection transitions follow the state machine: `to_connecting`
succeeds exactly from the disconnected state and increments `attempts` by one,
panicking otherwise; `to_connected` succeeds exactly from the connecting
state, resetting `attempts` to 0 and the ping state to `None`, panicking
otherwise; and `to_disconnected` is permitted from every state. -/
theorem session_transitions (s : Session) (t : LocalTime) :
    (s.is_disconnected = true →
      s.to_connecting
        = some { s with state := State.connecting, attempts := s.attempts + 1 }) ∧
    (s.is_disconnected = false → s.to_connecting = Option.none) ∧
    (s.is_connecting = true →
      s.to_connected t
        = some { s with attempts := 0, state := State.connected t PingState.none Protocol.default }) ∧
    (s.is_connecting = false → s.to_connected t = Option.none) ∧
    (s.to_disconnected t = { s with state := State.disconnected t }) := by
  refine ⟨?_, ?_, ?_, ?_, rfl⟩
  · intro h
    simp [Session.to_connecting, h]
  · intro h
    simp [Session.to_connecting, h]
  · intro h
    simp [Session.to_connected, h]
  · intro h
    simp [Session.to_connected, h]

/-- Witness for C8: a disconnected session transitions to connecting with its
attempts counter incremented, and a connecting session transitions to
connected with attempts reset. -/
theorem session_transitions_witness :
    (sessionDisconnected.to_connecting
      = some { sessionDisconnected with
               state := State.connecting,
               attempts := sessionDisconnected.attempts + 1 }) ∧
    ((mkSession State.connecting).to_connected 5
      = some { (mkSession State.connecting) with attempts := 0, state := State.connected 5 PingState.none Protocol.default }) :=
  ⟨(session_transitions sessionDisconnected 5).1 rfl,
   (session_transitions (mkSession State.connecting) 5).2.2.1 rfl⟩

/-- C10: under the `All` tracking policy, `Config::track p` returns `false`
and leaves the whole configuration unchanged, and a blocked repository id
remains untracked after the call. -/
theorem track_all_noop (c : Config) (p : Id) (blocked : Finset Id)
    (h : c.project_tracking = ProjectTracking.all blocked) :
    c.track p = (false, c) ∧
    (p ∈ blocked → ((c.track p).2.is_tracking p) = false) := by
  obtain ⟨con, ext, prox, nw, pt, rt, rel, lis⟩ := c
  cases pt with
  | all b =>
      cases h
      refine ⟨rfl, ?_⟩
      intro hp
      show decide (p ∉ blocked) = false
      simp [hp]
  | allowed ids =>
      cases h

/-- Witness for C10 at a concrete configuration blocking repository 0. -/
theorem track_all_noop_witness :
    configBlockedZero.track 0 = (false, configBlockedZero) ∧
    ((configBlockedZero.track 0).2.is_tracking 0) = false :=
  ⟨(track_all_noop configBlockedZero 0 {0} rfl).1,
   (track_all_noop configBlockedZero 0 {0} rfl).2 (by decide)⟩

set_option maxRecDepth 4000 in
/-- C4 (code bug): `Framer::frame` writes a one-byte length header — the
big-endian bytes of the `u8` the length is converted to — and rejects any
payload longer than 255 bytes, while the claim (and the decoder in the same
file, which reads a two-byte big-endian length) calls for a two-byte header
and a 65535-byte limit: the frame for the two-byte payload `[104, 105]` is
`[2, 104, 105]`, not `[0, 2, 104, 105]`, and a 256-byte payload is rejected. -/
theorem frame_one_byte_header :
    Framer.frame [104, 105] = Except.ok [2, 104, 105] ∧
    Framer.frame [104, 105] ≠ Except.ok [0, 2, 104, 105] ∧
    Framer.frame (List.replicate 256 0) = Except.error ⟨256⟩ := by
  refine ⟨rfl, by decide, rfl⟩

/-- C5 (code bug): framing the payload `[97]` yields `[1, 97]` (a one-byte
length header), and feeding that frame back into the framer makes the
iterator yield nothing at all — `drain` returns `[]`, not the original
payload list `[[97]]` — while also consuming the buffered bytes. -/
theorem framer_no_roundtrip :
    Framer.frame [97] = Except.ok [1, 97] ∧
    Framer.drain (Framer.push ⟨[]⟩ [1, 97]) 4 = ([], ⟨[]⟩) ∧
    (Framer.drain (Framer.push ⟨[]⟩ [1, 97]) 4).1 ≠ [[97]] := by
  refine ⟨rfl, rfl, by decide⟩

/-- C6 (code bug): the frame of a `MuxMsg` is the two big-endian channel-id
bytes followed by its data, and a short frame is rejected, as claimed; but
`TryFrom` keeps the whole frame — channel bytes included — as `data` (the
cursor's `into_inner` returns the entire underlying vector), so the
round-trip is not the identity: `{channel := 0, data := [97]}` comes back as
`{channel := 0, data := [0, 0, 97]}`. -/
theorem muxmsg_no_roundtrip :
    MuxMsg.toFrame { channel := 0, data := [97] } = [0, 0, 97] ∧
    MuxMsg.tryFrom (MuxMsg.toFrame { channel := 0, data := [97] })
      = Except.ok { channel := 0, data := [0, 0, 97] } ∧
    MuxMsg.tryFrom (MuxMsg.toFrame { channel := 0, data := [97] })
      ≠ Except.ok { channel := 0, data := [97] } ∧
    MuxMsg.tryFrom [5] = Except.error ChannelError.mk := by
  refine ⟨rfl, rfl, by decide, rfl⟩

end Heartwood
